import Mathlib

/-!
Shallow embedding of the pneumonia-detection REST API (`API_Rest/main.py`).

Bytes of a Python `bytes` object are modelled as `Nat` values (with explicit
`< 256` bounds where they matter), floating-point model outputs and pixel
scalars as `ℚ`, the wall clock as an explicit `Nat` parameter, and the two
external collaborators (Pillow's image decoder and the Keras model) as
function parameters, so every handler is a total function of its inputs.
-/

set_option autoImplicit false

namespace PneumoniaAPI

/-- A Python byte string: a list of byte values. -/
abbrev ByteSeq := List Nat

/-! ### Base64 (`base64.b64decode` / `base64.b64encode`) -/

/-- Index of a character in the standard base64 alphabet
`A-Z a-z 0-9 + /`, or `none` when the character is not in the alphabet. -/
def sextetOfChar (c : Char) : Option Nat :=
  if 'A' ≤ c ∧ c ≤ 'Z' then some (c.toNat - 65)
  else if 'a' ≤ c ∧ c ≤ 'z' then some (c.toNat - 97 + 26)
  else if '0' ≤ c ∧ c ≤ '9' then some (c.toNat - 48 + 52)
  else if c = '+' then some 62
  else if c = '/' then some 63
  else none

/-- Character of the standard base64 alphabet at index `n` (for `n < 64`). -/
def charOfSextet (n : Nat) : Char :=
  if n < 26 then Char.ofNat (65 + n)
  else if n < 52 then Char.ofNat (97 + (n - 26))
  else if n < 62 then Char.ofNat (48 + (n - 52))
  else if n = 62 then '+' else '/'

/-- Encode bytes three at a time into base64 characters, padding the final
partial group with `=`, as `base64.b64encode` does. -/
def b64encodeChunks : ByteSeq → List Char
  | [] => []
  | [a] =>
      [charOfSextet (a / 4), charOfSextet (a % 4 * 16), '=', '=']
  | [a, b] =>
      [charOfSextet (a / 4), charOfSextet (a % 4 * 16 + b / 16),
       charOfSextet (b % 16 * 4), '=']
  | a :: b :: c :: rest =>
      charOfSextet (a / 4) :: charOfSextet (a % 4 * 16 + b / 16) ::
      charOfSextet (b % 16 * 4 + c / 64) :: charOfSextet (c % 64) ::
      b64encodeChunks rest

/-- `base64.b64encode` on a byte string, as an ASCII string. -/
def b64encode (bs : ByteSeq) : String :=
  String.mk (b64encodeChunks bs)

/-- The character loop of `binascii.a2b_base64` in its lenient mode
(`strict_mode=False`, what `base64.b64decode` uses by default), carrying
its state: `quad_pos` (position inside the current group of four),
`leftchar` (bits carried between characters), `pads` (consecutive padding
characters seen in the current group) and the output bytes so far.
Characters outside the alphabet are skipped; a padding character at
`quad_pos ≥ 2` that completes a group ends decoding early with the output
so far; input ending mid-group is an error (`none`). -/
def a2b_base64 : List Char → Nat → Nat → Nat → ByteSeq → Option ByteSeq
  | [], quad_pos, _, _, out => if quad_pos = 0 then some out else none
  | c :: rest, quad_pos, leftchar, pads, out =>
      if c = '=' then
        if 2 ≤ quad_pos then
          if 4 ≤ quad_pos + (pads + 1) then some out
          else a2b_base64 rest quad_pos leftchar (pads + 1) out
        else a2b_base64 rest quad_pos leftchar pads out
      else
        match sextetOfChar c with
        | none => a2b_base64 rest quad_pos leftchar pads out
        | some s =>
            match quad_pos with
            | 0 => a2b_base64 rest 1 s 0 out
            | 1 => a2b_base64 rest 2 (s % 16) 0 (out ++ [leftchar * 4 + s / 16])
            | 2 => a2b_base64 rest 3 (s % 4) 0 (out ++ [leftchar * 16 + s / 4])
            | _ => a2b_base64 rest 0 0 0 (out ++ [leftchar * 64 + s])

/-- `base64.b64decode` on a string with its default `validate=False`: the
string must be pure ASCII (otherwise `ValueError`), and its characters are
fed to the lenient `binascii.a2b_base64` loop; `none` models either
exception. -/
def b64decode (s : String) : Option ByteSeq :=
  if s.data.all (fun c => c.toNat < 128) then a2b_base64 s.data 0 0 0 []
  else none

/-! ### Images and `preprocess_image` -/

/-- PIL color modes relevant to the service: true-color, single-channel
grayscale, and true-color with alpha. -/
inductive ImageMode where
  | RGB
  | L
  | RGBA
deriving DecidableEq

/-- A decoded PIL image: a color mode, positive-or-zero pixel dimensions and
a per-coordinate channel tuple. A mode-`L` image carries its intensity in
the first component; a mode-`RGB` image uses the first three; a mode-`RGBA`
image uses all four. -/
structure PILImage where
  mode : ImageMode
  width : Nat
  height : Nat
  px : Nat → Nat → Fin 256 × Fin 256 × Fin 256 × Fin 256

/-- `Image.convert` with target mode `RGB`: grayscale intensity is
replicated across the three channels, an alpha channel is dropped. -/
def PILImage.convertRGB (img : PILImage) : PILImage :=
  { mode := ImageMode.RGB
    width := img.width
    height := img.height
    px := fun x y =>
      match img.mode, img.px x y with
      | ImageMode.L, (v, _, _, _) => (v, v, v, 0)
      | ImageMode.RGB, p => p
      | ImageMode.RGBA, p => p }

/-- `Image.resize` to `w × h` pixels. The resampling filter is modelled as
nearest-neighbour sampling; the claims depend only on the output dimensions
and on resampled values being channel values of the source image. -/
def PILImage.resize (img : PILImage) (w h : Nat) : PILImage :=
  { mode := img.mode
    width := w
    height := h
    px := fun x y => img.px (x * img.width / w) (y * img.height / h) }

/-- A NumPy array: an explicit shape and the row-major flattened data. -/
structure NDArray where
  shape : List Nat
  data : List ℚ

/-- `np.array` applied to an RGB-mode PIL image (the only use in the code,
always after the RGB conversion): a `(height, width, 3)` uint8 array holding
the first three channels of each pixel. -/
def np_array (img : PILImage) : NDArray :=
  { shape := [img.height, img.width, 3]
    data :=
      (List.range img.height).flatMap fun y =>
        (List.range img.width).flatMap fun x =>
          [((img.px x y).1.val : ℚ), ((img.px x y).2.1.val : ℚ),
           ((img.px x y).2.2.1.val : ℚ)] }

/-- Elementwise division of an array by a scalar
(`img_array.astype(float32) / 255.0`). -/
def NDArray.scaleDiv (a : NDArray) (d : ℚ) : NDArray :=
  { shape := a.shape, data := a.data.map (fun q => q / d) }

/-- `np.expand_dims(a, axis=0)`: prepend a batch dimension of size 1. -/
def expand_dims0 (a : NDArray) : NDArray :=
  { shape := 1 :: a.shape, data := a.data }

/-- `IMG_SIZE = (224, 224)`. -/
def IMG_SIZE : Nat × Nat := (224, 224)

/-- `preprocess_image`: convert to RGB when needed, resize to `IMG_SIZE`,
scale byte values to `[0, 1]`, and add the batch dimension. -/
def preprocess_image (image : PILImage) : NDArray :=
  let image1 := if image.mode ≠ ImageMode.RGB then image.convertRGB else image
  let image2 := image1.resize IMG_SIZE.1 IMG_SIZE.2
  let img_array := np_array image2
  let img_array2 := img_array.scaleDiv 255
  expand_dims0 img_array2

/-! ### Model, server state and `make_prediction` -/

/-- A loaded Keras model: a scalar-output predictor on a preprocessed
tensor (`model.predict(arr)[0][0]`). -/
structure Model where
  predict : NDArray → ℚ

/-- The module-level globals `model` and `model_name`, set once at startup
and read-only afterwards. -/
structure ServerState where
  model : Option Model
  model_name : Option String

/-- An `HTTPException`: status code and detail message. -/
structure HTTPError where
  status_code : Nat
  detail : String
deriving DecidableEq

/-- The JSON result built by `make_prediction`: predicted class, confidence,
the two class probabilities, the reported model name and the timestamp. -/
structure PredictionResult where
  prediction : String
  confidence : ℚ
  probNormal : ℚ
  probPneumonia : ℚ
  model_used : Option String
  timestamp : Nat
deriving DecidableEq

/-- `make_prediction`: 503 when no model is loaded; otherwise classify the
scalar output `p` with the strict test `p > 0.5` and report `p` as
P(PNEUMONIA). `now` stands for `datetime.now()`. -/
def make_prediction (st : ServerState) (now : Nat) (img_array : NDArray) :
    Except HTTPError PredictionResult :=
  match st.model with
  | none => Except.error { status_code := 503, detail := "Modelo no disponible" }
  | some model =>
      let prediction := model.predict img_array
      let predicted_class := if prediction > 1/2 then "PNEUMONIA" else "NORMAL"
      let confidence := if prediction > 1/2 then prediction else 1 - prediction
      Except.ok
        { prediction := predicted_class
          confidence := confidence
          probNormal := 1 - prediction
          probPneumonia := prediction
          model_used := st.model_name
          timestamp := now }

/-! ### HTTP endpoints -/

/-- A JSON HTTP response as the endpoints produce it: status code, plus the
prediction payload on success. -/
structure Response where
  status : Nat
  body : Option PredictionResult
deriving DecidableEq

/-- The uploaded file of `POST /predict`: FastAPI's `UploadFile` exposes a
declared content type (possibly absent) and the raw bytes. -/
structure UploadFile where
  content_type : Option String
  contents : ByteSeq

/-- `Image.open` on raw bytes, an external collaborator (Pillow): `none`
models the exception raised when the bytes cannot be decoded as an image. -/
abbrev Decoder := ByteSeq → Option PILImage

/-- Python dict lookup `data[k]` on a string-valued JSON object; `none`
models `k not in data`. -/
def dictGet (data : List (String × String)) (k : String) : Option String :=
  (data.find? (fun kv => kv.1 == k)).map Prod.snd

/-- Python `s.startswith(p)`: the characters of `p` are a prefix of the
characters of `s`. -/
def str_startswith (s p : String) : Bool :=
  p.data.isPrefixOf s.data

/-- `POST /predict`. When `content_type` is absent, `None.startswith`
raises `AttributeError`, which the generic `except` converts to a 500.
A non-image content type gives 400; a payload over 10 MiB gives 413; an
image-decode failure reaches the generic `except` and gives 500; an
`HTTPException` from `make_prediction` is re-raised with its own status. -/
def predict (st : ServerState) (decode : Decoder) (file : UploadFile)
    (now : Nat) : Response :=
  match file.content_type with
  | none => { status := 500, body := none }
  | some ct =>
      if ! str_startswith ct "image/" then { status := 400, body := none }
      else if file.contents.length > 10 * 1024 * 1024 then
        { status := 413, body := none }
      else
        match decode file.contents with
        | none => { status := 500, body := none }
        | some image =>
            match make_prediction st now (preprocess_image image) with
            | Except.error e => { status := e.status_code, body := none }
            | Except.ok result => { status := 200, body := some result }

/-- `POST /predict_base64`. A body without the `image` key gives 400; a
base64 decode failure gives 400; an image-decode failure reaches the
generic `except` and gives 500; an `HTTPException` from `make_prediction`
is re-raised with its own status. -/
def predict_base64 (st : ServerState) (decode : Decoder)
    (data : List (String × String)) (now : Nat) : Response :=
  match dictGet data "image" with
  | none => { status := 400, body := none }
  | some s =>
      match b64decode s with
      | none => { status := 400, body := none }
      | some image_data =>
          match decode image_data with
          | none => { status := 500, body := none }
          | some image =>
              match make_prediction st now (preprocess_image image) with
              | Except.error e => { status := e.status_code, body := none }
              | Except.ok result => { status := 200, body := some result }

/-- The handlers read the module globals and never assign them; threading
the state explicitly, `POST /predict` returns it unchanged. -/
def predict_step (st : ServerState) (decode : Decoder) (file : UploadFile)
    (now : Nat) : Response × ServerState :=
  (predict st decode file now, st)

/-- State-threaded form of `POST /predict_base64`; the state is returned
unchanged for the same reason as `predict_step`. -/
def predict_base64_step (st : ServerState) (decode : Decoder)
    (data : List (String × String)) (now : Nat) : Response × ServerState :=
  (predict_base64 st decode data now, st)

/-- The JSON returned by `GET /health`. -/
structure HealthResponse where
  status : String
  model_loaded : Bool
  model_name : Option String
  timestamp : Nat
  message : String

/-- `GET /health`: reports `healthy` with the loaded model name when a model
is present, `degraded` otherwise. -/
def health_check (st : ServerState) (now : Nat) : HealthResponse :=
  { status := if st.model.isSome then "healthy" else "degraded"
    model_loaded := st.model.isSome
    model_name := if st.model.isSome then st.model_name else some "None"
    timestamp := now
    message := if st.model.isSome then "API funcionando correctamente"
               else "API sin modelo cargado" }

/-! ### Startup model loading -/

/-- `model_priority`: the fixed ordered list of candidate model files with
their human-readable names. -/
def model_priority : List (String × String) :=
  [("vgg16_finetuned.h5", "VGG16 Fine-tuned"),
   ("vgg16_best.h5", "VGG16 Best"),
   ("baseline_best.h5", "CNN Baseline")]

/-- The filesystem and Keras loader the startup loop calls into:
`model_path.exists()` and `keras.models.load_model` (with `none` modelling
a load that raises). -/
structure Env where
  pathExists : String → Bool
  load_model : String → Option Model

/-- The startup loop over `model_priority`: the first candidate that exists
and loads successfully becomes the model, with its declared name; `none`
when every candidate is missing or fails to load. -/
def load_first (env : Env) : List (String × String) → Option (Model × String)
  | [] => none
  | (filename, name) :: rest =>
      if env.pathExists filename then
        match env.load_model filename with
        | some m => some (m, name)
        | none => load_first env rest
      else load_first env rest

/-- The filenames on which the startup loop actually calls the loader:
existing candidates up to and including the first successful one. -/
def load_attempts (env : Env) : List (String × String) → List String
  | [] => []
  | (filename, _) :: rest =>
      if env.pathExists filename then
        match env.load_model filename with
        | some _ => [filename]
        | none => filename :: load_attempts env rest
      else load_attempts env rest

/-! ### Concrete inputs used by witnesses and counterexamples -/

/-- An empty tensor, usable as a model input in witnesses. -/
def arr0 : NDArray := { shape := [], data := [] }

/-- A model that always outputs exactly 0.5. -/
def mHalf : Model := { predict := fun _ => 1/2 }

/-- A model that always outputs 1. -/
def mOne : Model := { predict := fun _ => 1 }

/-- Server state holding the constant-0.5 model. -/
def stHalf : ServerState := { model := some mHalf, model_name := some "VGG16 Best" }

/-- Server state holding the constant-1 model. -/
def stOne : ServerState := { model := some mOne, model_name := some "VGG16 Best" }

/-- Server state with no model loaded. -/
def stNone : ServerState := { model := none, model_name := none }

/-- An image decoder that fails on every byte string. -/
def decNone : Decoder := fun _ => none

/-- A concrete 1-by-1 RGB image. -/
def imgW : PILImage :=
  { mode := ImageMode.RGB, width := 1, height := 1, px := fun _ _ => (0, 0, 0, 0) }

/-- An image decoder that decodes every byte string to `imgW`. -/
def decW : Decoder := fun _ => some imgW

/-! ### C1: strict greater-than classification threshold -/

/-- C1: for every scalar model output `p = m.predict arr`, the result of
`make_prediction` has `prediction = "PNEUMONIA"` if and only if `p > 0.5`;
in particular `p = 0.5` yields `prediction = "NORMAL"`. -/
theorem classification_threshold_strict (st : ServerState) (m : Model)
    (now : Nat) (arr : NDArray) (hm : st.model = some m) :
    ∃ r, make_prediction st now arr = Except.ok r ∧
      (r.prediction = "PNEUMONIA" ↔ m.predict arr > 1/2) ∧
      (m.predict arr = 1/2 → r.prediction = "NORMAL") := by
  unfold make_prediction
  rw [hm]
  by_cases h : m.predict arr > 1/2
  · refine ⟨_, rfl, ?_, ?_⟩
    · constructor
      · intro _
        exact h
      · intro _
        simp only [if_pos h]
    · intro heq
      rw [heq] at h
      exact absurd h (by norm_num)
  · refine ⟨_, rfl, ?_, ?_⟩
    · constructor
      · intro hstr
        simp only [if_neg h] at hstr
        exact absurd hstr (by decide)
      · intro hp
        exact absurd hp h
    · intro _
      simp only [if_neg h]

/-- Witness for C1: a state holding the constant-0.5 model classifies as
NORMAL. -/
theorem classification_threshold_strict_witness :
    ∃ r, make_prediction stHalf 0 arr0 = Except.ok r ∧ r.prediction = "NORMAL" := by
  obtain ⟨r, hok, _, htie⟩ := classification_threshold_strict stHalf mHalf 0 arr0 rfl
  exact ⟨r, hok, htie rfl⟩

/-! ### C2: probabilities sum to one, confidence is the max -/

/-- C2: for every model output `p ∈ [0,1]`, the result has
`probNormal = 1 - p`, `probPneumonia = p`, the two probabilities sum to 1
exactly, and `confidence` is their maximum, hence at least 0.5. -/
theorem probabilities_sum_confidence_max (st : ServerState) (m : Model)
    (now : Nat) (arr : NDArray) (hm : st.model = some m)
    (hp0 : 0 ≤ m.predict arr) (hp1 : m.predict arr ≤ 1) :
    ∃ r, make_prediction st now arr = Except.ok r ∧
      r.probNormal = 1 - m.predict arr ∧
      r.probPneumonia = m.predict arr ∧
      r.probNormal + r.probPneumonia = 1 ∧
      r.confidence = max r.probNormal r.probPneumonia ∧
      1/2 ≤ r.confidence := by
  unfold make_prediction
  rw [hm]
  refine ⟨_, rfl, rfl, rfl, by ring, ?_, ?_⟩
  · by_cases h : m.predict arr > 1/2
    · simp only [if_pos h]
      exact (max_eq_right (by linarith)).symm
    · simp only [if_neg h]
      push_neg at h
      exact (max_eq_left (by linarith)).symm
  · by_cases h : m.predict arr > 1/2
    · simp only [if_pos h]
      linarith
    · simp only [if_neg h]
      push_neg at h
      linarith

/-- Witness for C2 at the constant-1 model: probabilities sum to 1 and the
confidence is at least 0.5. -/
theorem probabilities_sum_confidence_max_witness :
    ∃ r, make_prediction stOne 0 arr0 = Except.ok r ∧
      r.probNormal + r.probPneumonia = 1 ∧ 1/2 ≤ r.confidence := by
  obtain ⟨r, hok, _, _, hsum, _, hc⟩ :=
    probabilities_sum_confidence_max stOne mOne 0 arr0 rfl zero_le_one (le_refl 1)
  exact ⟨r, hok, hsum, hc⟩

/-- Every error an `HTTPException` raised by `make_prediction` carries is a
503: the only raise in it is the missing-model branch. -/
theorem make_prediction_error_503 (st : ServerState) (now : Nat)
    (arr : NDArray) (e : HTTPError)
    (h : make_prediction st now arr = Except.error e) : e.status_code = 503 := by
  unfold make_prediction at h
  cases hm : st.model with
  | none =>
      rw [hm] at h
      cases h
      rfl
  | some m =>
      rw [hm] at h
      exact absurd h (by simp)

/-- With a model present, `make_prediction` succeeds and every field of the
result is the stated function of the scalar output and the state. -/
theorem make_prediction_fields (st : ServerState) (m : Model) (now : Nat)
    (arr : NDArray) (hm : st.model = some m) :
    make_prediction st now arr = Except.ok
      { prediction := if m.predict arr > 1/2 then "PNEUMONIA" else "NORMAL"
        confidence := if m.predict arr > 1/2 then m.predict arr else 1 - m.predict arr
        probNormal := 1 - m.predict arr
        probPneumonia := m.predict arr
        model_used := st.model_name
        timestamp := now } := by
  unfold make_prediction
  rw [hm]

/-! ### More concrete inputs for witnesses and counterexamples -/

/-- An upload whose declared content type is `text/plain`. -/
def fileTP : UploadFile := { content_type := some "text/plain", contents := [] }

/-- An upload with no declared content type. -/
def fileNoCT : UploadFile := { content_type := none, contents := [] }

/-- An image-typed upload one byte over the 10 MiB limit. -/
def fileBig : UploadFile :=
  { content_type := some "image/png", contents := List.replicate (10 * 1024 * 1024 + 1) 0 }

/-- A JSON body whose image field decodes (as base64) to three zero bytes. -/
def dataAAAA : List (String × String) := [("image", "AAAA")]

/-- A JSON body without the image field. -/
def dataWrongField : List (String × String) := [("wrong_field", "x")]

/-- A JSON body whose image field is malformed base64 (odd leftover group). -/
def dataBadB64 : List (String × String) := [("image", "QQ")]

/-! ### C5: `/predict` content-type and size checks happen before decode -/

/-- C5: on `POST /predict`, a declared non-image content type is rejected
with 400 and an image-typed payload over 10 MiB with 413; both responses
are the same for every image decoder, i.e. the rejection happens before
any attempt to decode the bytes. -/
theorem predict_validation_before_decode (st : ServerState) (file : UploadFile)
    (now : Nat) :
    (∀ ct, file.content_type = some ct → str_startswith ct "image/" = false →
      ∀ dec, predict st dec file now = { status := 400, body := none }) ∧
    (∀ ct, file.content_type = some ct → str_startswith ct "image/" = true →
      file.contents.length > 10 * 1024 * 1024 →
      ∀ dec, predict st dec file now = { status := 413, body := none }) := by
  constructor
  · intro ct hct hsw dec
    simp [predict, hct, hsw]
  · intro ct hct hsw hlen dec
    simp [predict, hct, hsw, hlen]

/-- Witness for C5: a `text/plain` upload gets 400 and an 10 MiB + 1 byte
image upload gets 413, under a decoder that accepts everything. -/
theorem predict_validation_before_decode_witness :
    predict stOne decW fileTP 0 = { status := 400, body := none } ∧
    predict stOne decW fileBig 0 = { status := 413, body := none } := by
  constructor
  · exact (predict_validation_before_decode stOne fileTP 0).1 "text/plain" rfl
      (by decide) decW
  · refine (predict_validation_before_decode stOne fileBig 0).2 "image/png" rfl
      (by decide) ?_ decW
    rw [show fileBig.contents = List.replicate (10 * 1024 * 1024 + 1) 0 from rfl,
      List.length_replicate]
    omega

/-! ### C6: `/predict_base64` missing-field and malformed-base64 checks -/

/-- C6: on `POST /predict_base64`, a body without the image field gets 400,
and a body whose image value fails base64 decoding gets 400; both responses
are the same for every image decoder, i.e. they are raised before the
image-decode step. -/
theorem predict_base64_validation (st : ServerState)
    (data : List (String × String)) (now : Nat) :
    (dictGet data "image" = none →
      ∀ dec, predict_base64 st dec data now = { status := 400, body := none }) ∧
    (∀ s, dictGet data "image" = some s → b64decode s = none →
      ∀ dec, predict_base64 st dec data now = { status := 400, body := none }) := by
  constructor
  · intro h dec
    simp [predict_base64, h]
  · intro s hs hb dec
    simp [predict_base64, hs, hb]

/-- Witness for C6: a wrong-field body and a malformed-base64 body both get
400. -/
theorem predict_base64_validation_witness :
    predict_base64 stOne decW dataWrongField 0 = { status := 400, body := none } ∧
    predict_base64 stOne decW dataBadB64 0 = { status := 400, body := none } := by
  constructor
  · exact (predict_base64_validation stOne dataWrongField 0).1 (by decide) decW
  · exact (predict_base64_validation stOne dataBadB64 0).2 "QQ" (by decide)
      (by decide) decW

/-! ### C4: valid base64 but undecodable image bytes -/

/-- Counterexample for C4: with a valid base64 image field whose bytes fail
image decoding, the response status is 500, not the claimed 400. -/
theorem base64_undecodable_counterexample :
    (predict_base64 stNone decNone dataAAAA 0).status = 500 ∧
    (predict_base64 stNone decNone dataAAAA 0).status ≠ 400 := by
  decide

/-- C4 as amended: when the image field holds valid base64 whose decoded
bytes cannot be decoded as an image, the `Image.open` failure reaches the
generic handler and the response status is 500. -/
theorem base64_undecodable_image_500 (st : ServerState) (dec : Decoder)
    (data : List (String × String)) (s : String) (bytes : ByteSeq) (now : Nat)
    (hf : dictGet data "image" = some s) (hb : b64decode s = some bytes)
    (hd : dec bytes = none) :
    predict_base64 st dec data now = { status := 500, body := none } := by
  simp [predict_base64, hf, hb, hd]

/-- Witness for the amended C4 at a concrete request. -/
theorem base64_undecodable_image_500_witness :
    predict_base64 stNone decNone dataAAAA 0 = { status := 500, body := none } :=
  base64_undecodable_image_500 stNone decNone dataAAAA "AAAA" [0, 0, 0] 0
    (by decide) (by decide) rfl

/-! ### C7: degraded health and 503 when no model is loaded -/

/-- Counterexample for C7: with no model loaded, a `/predict` request with
content type `text/plain` fails with 400, not 503, so not every prediction
request fails with 503. -/
theorem no_model_not_always_503_counterexample :
    (predict stNone decNone fileTP 0).status = 400 ∧
    (predict stNone decNone fileTP 0).status ≠ 503 := by
  decide

/-- C7 as amended: with no model loaded, `/health` reports `degraded` with
`model_loaded = false`, `make_prediction` always raises a 503, and every
prediction request that passes validation and image decoding fails with
503 (requests failing an earlier check keep their 400/413/500 codes); with
a model loaded, `/health` reports `healthy` with `model_loaded = true`. -/
theorem health_degraded_and_503 (st : ServerState) (now : Nat) :
    (st.model = none →
      (health_check st now).status = "degraded" ∧
      (health_check st now).model_loaded = false ∧
      (∀ now2 arr, ∃ e, make_prediction st now2 arr = Except.error e ∧
        e.status_code = 503) ∧
      (∀ dec file ct img now2, file.content_type = some ct →
        str_startswith ct "image/" = true →
        ¬ file.contents.length > 10 * 1024 * 1024 →
        dec file.contents = some img →
        (predict st dec file now2).status = 503) ∧
      (∀ dec data s bytes img now2, dictGet data "image" = some s →
        b64decode s = some bytes → dec bytes = some img →
        (predict_base64 st dec data now2).status = 503)) ∧
    (∀ m, st.model = some m →
      (health_check st now).status = "healthy" ∧
      (health_check st now).model_loaded = true) := by
  constructor
  · intro h
    refine ⟨by simp [health_check, h], by simp [health_check, h], ?_, ?_, ?_⟩
    · intro now2 arr
      refine ⟨{ status_code := 503, detail := "Modelo no disponible" }, ?_, rfl⟩
      unfold make_prediction
      rw [h]
    · intro dec file ct img now2 hct hsw hlen hdec
      simp [predict, hct, hsw, hlen, hdec, make_prediction, h]
    · intro dec data s bytes img now2 hs hb hdec
      simp [predict_base64, hs, hb, hdec, make_prediction, h]
  · intro m hm
    exact ⟨by simp [health_check, hm], by simp [health_check, hm]⟩

/-- Witness for the amended C7: with no model, health is degraded and a
well-formed `/predict` request gets 503. -/
theorem health_degraded_and_503_witness :
    (health_check stNone 0).status = "degraded" ∧
    (predict stNone decW { content_type := some "image/png", contents := [] } 0).status
      = 503 := by
  have h := health_degraded_and_503 stNone 0
  refine ⟨(h.1 rfl).1, ?_⟩
  exact (h.1 rfl).2.2.2.1 decW { content_type := some "image/png", contents := [] }
    "image/png" imgW 0 rfl (by decide) (by decide) rfl

/-! ### C10: absent content type gives 500, and 400 only from the
content-type check -/

/-- C10: on `POST /predict`, an upload with no declared content type makes
the content-type check itself raise inside the handler's `try`, so the
response is 500; and the status is 400 exactly when the declared content
type is a string that does not start with `image/`. -/
theorem predict_none_content_type_500 (st : ServerState) (dec : Decoder)
    (file : UploadFile) (now : Nat) :
    (file.content_type = none →
      predict st dec file now = { status := 500, body := none }) ∧
    ((predict st dec file now).status = 400 ↔
      ∃ ct, file.content_type = some ct ∧ str_startswith ct "image/" = false) := by
  constructor
  · intro h
    simp [predict, h]
  · cases hct : file.content_type with
    | none =>
        simp [predict, hct]
    | some ct =>
        cases hsw : str_startswith ct "image/" with
        | false =>
            simp [predict, hct, hsw]
        | true =>
            constructor
            · intro h400
              exfalso
              by_cases hlen : file.contents.length > 10 * 1024 * 1024
              · simp [predict, hct, hsw, hlen] at h400
              · cases hdec : dec file.contents with
                | none =>
                    simp [predict, hct, hsw, hlen, hdec] at h400
                | some img =>
                    cases hmp : make_prediction st now (preprocess_image img) with
                    | error e =>
                        have h503 := make_prediction_error_503 st now
                          (preprocess_image img) e hmp
                        simp [predict, hct, hsw, hlen, hdec, hmp, h503] at h400
                    | ok r =>
                        simp [predict, hct, hsw, hlen, hdec, hmp] at h400
            · rintro ⟨ct2, hct2, hsw2⟩
              injection hct2 with h2
              subst h2
              rw [hsw] at hsw2
              exact absurd hsw2 (by decide)

/-- Witness for C10: a request with no declared content type gets 500. -/
theorem predict_none_content_type_500_witness :
    predict stNone decNone fileNoCT 0 = { status := 500, body := none } :=
  (predict_none_content_type_500 stNone decNone fileNoCT 0).1 rfl

/-! ### C3: preprocessing always yields a (1,224,224,3) tensor in [0,1] -/

/-- Every entry of the uint8 array of an image is between 0 and 255. -/
theorem np_array_data_bounds (img : PILImage) :
    ∀ v ∈ (np_array img).data, 0 ≤ v ∧ v ≤ 255 := by
  intro v hv
  simp only [np_array, List.mem_flatMap, List.mem_range, List.mem_cons,
    List.mem_singleton, List.not_mem_nil, or_false] at hv
  obtain ⟨y, -, x, -, hv⟩ := hv
  have hb : ∀ k : Fin 256, (0:ℚ) ≤ (k.val : ℚ) ∧ (k.val : ℚ) ≤ 255 := by
    intro k
    have hk : k.val ≤ 255 := by
      have := k.isLt
      omega
    exact ⟨by positivity, by exact_mod_cast hk⟩
  rcases hv with rfl | rfl | rfl
  · exact hb (img.px x y).1
  · exact hb (img.px x y).2.1
  · exact hb (img.px x y).2.2.1

/-- C3: for every decoded image, of any color mode and pixel dimensions,
`preprocess_image` returns an array of shape exactly (1, 224, 224, 3) with
every value in [0, 1]. It is a total function, so it never raises. -/
theorem preprocess_image_shape_and_range (image : PILImage) :
    (preprocess_image image).shape = [1, 224, 224, 3] ∧
    ∀ v ∈ (preprocess_image image).data, 0 ≤ v ∧ v ≤ 1 := by
  constructor
  · rfl
  · intro v hv
    have hdata : (preprocess_image image).data =
        ((np_array ((if image.mode ≠ ImageMode.RGB then image.convertRGB
          else image).resize IMG_SIZE.1 IMG_SIZE.2)).data).map
            (fun q => q / 255) := rfl
    rw [hdata] at hv
    obtain ⟨w, hw, rfl⟩ := List.mem_map.mp hv
    obtain ⟨h0, h255⟩ := np_array_data_bounds _ w hw
    constructor
    · exact div_nonneg h0 (by norm_num)
    · rw [div_le_one (by norm_num)]
      linarith

/-- Witness for C3: the concrete 1-by-1 image preprocesses to the fixed
shape. -/
theorem preprocess_image_shape_and_range_witness :
    (preprocess_image imgW).shape = [1, 224, 224, 3] :=
  (preprocess_image_shape_and_range imgW).1

/-! ### C9: startup probes the priority list in order -/

/-- Candidates that are missing or fail to load leave the startup loop
result unchanged. -/
theorem load_first_append_failures (env : Env) (pre rest : List (String × String))
    (h : ∀ c ∈ pre, env.pathExists c.1 = false ∨ env.load_model c.1 = none) :
    load_first env (pre ++ rest) = load_first env rest := by
  induction pre with
  | nil => rfl
  | cons c pre ih =>
      obtain ⟨filename, name⟩ := c
      have hc : env.pathExists filename = false ∨ env.load_model filename = none :=
        h ⟨filename, name⟩ (by simp)
      have hrest : ∀ c ∈ pre, env.pathExists c.1 = false ∨ env.load_model c.1 = none :=
        fun c hcm => h c (by simp [hcm])
      show load_first env ((filename, name) :: (pre ++ rest)) = load_first env rest
      rcases hc with hc | hc
      · simp only [load_first, hc, Bool.false_eq_true, if_false]
        exact ih hrest
      · simp only [load_first, hc]
        split
        · exact ih hrest
        · exact ih hrest

/-- Candidates that are missing or fail to load contribute exactly the
existing filenames to the attempt log. -/
theorem load_attempts_append_failures (env : Env) (pre rest : List (String × String))
    (h : ∀ c ∈ pre, env.pathExists c.1 = false ∨ env.load_model c.1 = none) :
    load_attempts env (pre ++ rest) =
      (pre.map Prod.fst).filter env.pathExists ++ load_attempts env rest := by
  induction pre with
  | nil => rfl
  | cons c pre ih =>
      obtain ⟨filename, name⟩ := c
      have hc : env.pathExists filename = false ∨ env.load_model filename = none :=
        h ⟨filename, name⟩ (by simp)
      have hrest : ∀ c ∈ pre, env.pathExists c.1 = false ∨ env.load_model c.1 = none :=
        fun c hcm => h c (by simp [hcm])
      show load_attempts env ((filename, name) :: (pre ++ rest)) = _
      rcases hc with hc | hc
      · simp only [load_attempts, hc, Bool.false_eq_true, if_false, List.map_cons,
          List.filter_cons, hc, ih hrest]
      · cases hex : env.pathExists filename with
        | false =>
            simp only [load_attempts, hex, Bool.false_eq_true, if_false, List.map_cons,
              List.filter_cons, hex, ih hrest]
        | true =>
            simp only [load_attempts, hex, if_true, hc, List.map_cons,
              List.filter_cons, List.cons_append, ih hrest]

/-- The startup loop yields no model exactly when every candidate in the
list is missing or fails to load. -/
theorem load_first_none_iff (env : Env) (cs : List (String × String)) :
    load_first env cs = none ↔
      ∀ c ∈ cs, env.pathExists c.1 = false ∨ env.load_model c.1 = none := by
  induction cs with
  | nil => simp [load_first]
  | cons c cs ih =>
      obtain ⟨filename, name⟩ := c
      constructor
      · intro h
        simp only [load_first] at h
        cases hex : env.pathExists filename with
        | false =>
            rw [hex] at h
            simp only [Bool.false_eq_true, if_false] at h
            intro d hd
            rcases List.mem_cons.mp hd with rfl | hdm
            · exact Or.inl hex
            · exact ih.mp h d hdm
        | true =>
            rw [hex] at h
            simp only [if_true] at h
            cases hload : env.load_model filename with
            | some m =>
                rw [hload] at h
                exact absurd h (by simp)
            | none =>
                rw [hload] at h
                intro d hd
                rcases List.mem_cons.mp hd with rfl | hdm
                · exact Or.inr hload
                · exact ih.mp h d hdm
      · intro h
        have hc : env.pathExists filename = false ∨ env.load_model filename = none :=
          h ⟨filename, name⟩ (by simp)
        have hrest := ih.mpr fun d hd => h d (by simp [hd])
        rcases hc with hc | hc
        · simp only [load_first, hc, Bool.false_eq_true, if_false]
          exact hrest
        · simp only [load_first, hc]
          split
          · exact hrest
          · exact hrest

/-- C9: when `model_priority` splits as failing candidates, then a candidate
that exists and loads, the startup loop selects exactly that candidate's
model and name, the loader is invoked only on the existing failing
candidates and then the successful one (never on later candidates), and in
general the model is absent exactly when every candidate is missing or
fails to load. -/
theorem model_loading_first_success (env : Env) (pre post : List (String × String))
    (filename name : String) (m : Model)
    (hsplit : model_priority = pre ++ (filename, name) :: post)
    (hpre : ∀ c ∈ pre, env.pathExists c.1 = false ∨ env.load_model c.1 = none)
    (hex : env.pathExists filename = true)
    (hload : env.load_model filename = some m) :
    load_first env model_priority = some (m, name) ∧
    load_attempts env model_priority =
      (pre.map Prod.fst).filter env.pathExists ++ [filename] ∧
    ∀ env2 : Env, (load_first env2 model_priority = none ↔
      ∀ c ∈ model_priority, env2.pathExists c.1 = false ∨
        env2.load_model c.1 = none) := by
  refine ⟨?_, ?_, fun env2 => load_first_none_iff env2 model_priority⟩
  · rw [hsplit, load_first_append_failures env pre _ hpre]
    simp [load_first, hex, hload]
  · rw [hsplit, load_attempts_append_failures env pre _ hpre]
    simp [load_attempts, hex, hload]

/-- An environment in which only the second candidate file exists. -/
def envW : Env :=
  { pathExists := fun fn => fn == "vgg16_best.h5"
    load_model := fun fn => if fn == "vgg16_best.h5" then some mOne else none }

/-- Witness for C9: with only the second candidate present, startup selects
it, reports its name, and attempts only that load. -/
theorem model_loading_first_success_witness :
    load_first envW model_priority = some (mOne, "VGG16 Best") ∧
    load_attempts envW model_priority = ["vgg16_best.h5"] := by
  have h := model_loading_first_success envW
    [("vgg16_finetuned.h5", "VGG16 Fine-tuned")]
    [("baseline_best.h5", "CNN Baseline")] "vgg16_best.h5" "VGG16 Best" mOne
    rfl (by simp [envW]) (by decide) (by simp [envW])
  exact ⟨h.1, by simpa [envW] using h.2.1⟩

/-! ### Base64 roundtrip -/

/-- Decoding the alphabet character of a sextet recovers the sextet. -/
theorem sextetOfChar_charOfSextet (n : Nat) (h : n < 64) :
    sextetOfChar (charOfSextet n) = some n := by
  have H : ∀ m : Fin 64, sextetOfChar (charOfSextet m.val) = some m.val := by decide
  exact H ⟨n, h⟩

/-- Every character the encoder emits for a sextet is ASCII. -/
theorem ascii_charOfSextet (n : Nat) : (charOfSextet n).toNat < 128 := by
  by_cases h : n < 64
  · have H : ∀ m : Fin 64, (charOfSextet m.val).toNat < 128 := by decide
    exact H ⟨n, h⟩
  · have hs : charOfSextet n = '/' := by
      unfold charOfSextet
      rw [if_neg (by omega), if_neg (by omega), if_neg (by omega), if_neg (by omega)]
    rw [hs]
    decide

/-- No alphabet character is the padding character. -/
theorem charOfSextet_ne_pad (n : Nat) : charOfSextet n ≠ '=' := by
  by_cases h : n < 64
  · have H : ∀ m : Fin 64, charOfSextet m.val ≠ '=' := by decide
    exact H ⟨n, h⟩
  · have hs : charOfSextet n = '/' := by
      unfold charOfSextet
      rw [if_neg (by omega), if_neg (by omega), if_neg (by omega), if_neg (by omega)]
    rw [hs]
    decide

/-- The encoder's character stream is pure ASCII. -/
theorem ascii_b64encodeChunks :
    ∀ bs : ByteSeq, (b64encodeChunks bs).all (fun c => c.toNat < 128) = true
  | [] => rfl
  | [a] => by
      simp [b64encodeChunks, ascii_charOfSextet]
  | [a, b] => by
      simp [b64encodeChunks, ascii_charOfSextet]
  | a :: b :: c :: rest => by
      simp [b64encodeChunks, ascii_charOfSextet, ascii_b64encodeChunks rest]

/-- Feeding the encoder's character stream to the lenient decoding loop
recovers the original bytes, appended to whatever was decoded before. -/
theorem a2b_b64encodeChunks :
    ∀ (bs out : ByteSeq), (∀ x ∈ bs, x < 256) →
      a2b_base64 (b64encodeChunks bs) 0 0 0 out = some (out ++ bs)
  | [], out, _ => by simp [b64encodeChunks, a2b_base64]
  | [a], out, h => by
      have ha : a < 256 := h a (by simp)
      simp only [b64encodeChunks, a2b_base64,
        charOfSextet_ne_pad (a / 4), charOfSextet_ne_pad (a % 4 * 16),
        sextetOfChar_charOfSextet (a / 4) (by omega),
        sextetOfChar_charOfSextet (a % 4 * 16) (by omega),
        if_false, ite_false, reduceIte]
      rw [show a / 4 * 4 + a % 4 * 16 / 16 = a from by omega]
      simp
  | [a, b], out, h => by
      have ha : a < 256 := h a (by simp)
      have hb : b < 256 := h b (by simp)
      simp only [b64encodeChunks, a2b_base64,
        charOfSextet_ne_pad (a / 4),
        charOfSextet_ne_pad (a % 4 * 16 + b / 16),
        charOfSextet_ne_pad (b % 16 * 4),
        sextetOfChar_charOfSextet (a / 4) (by omega),
        sextetOfChar_charOfSextet (a % 4 * 16 + b / 16) (by omega),
        sextetOfChar_charOfSextet (b % 16 * 4) (by omega),
        if_false, ite_false, reduceIte]
      rw [show a / 4 * 4 + (a % 4 * 16 + b / 16) / 16 = a from by omega,
        show (a % 4 * 16 + b / 16) % 16 * 16 + b % 16 * 4 / 4 = b from by omega,
        List.append_assoc]
      rfl
  | a :: b :: c :: rest, out, h => by
      have ha : a < 256 := h a (by simp)
      have hb : b < 256 := h b (by simp)
      have hc : c < 256 := h c (by simp)
      have ih := a2b_b64encodeChunks rest (out ++ [a, b, c])
        (fun x hx => h x (by simp [hx]))
      simp only [b64encodeChunks, a2b_base64,
        charOfSextet_ne_pad (a / 4),
        charOfSextet_ne_pad (a % 4 * 16 + b / 16),
        charOfSextet_ne_pad (b % 16 * 4 + c / 64),
        charOfSextet_ne_pad (c % 64),
        sextetOfChar_charOfSextet (a / 4) (by omega),
        sextetOfChar_charOfSextet (a % 4 * 16 + b / 16) (by omega),
        sextetOfChar_charOfSextet (b % 16 * 4 + c / 64) (by omega),
        sextetOfChar_charOfSextet (c % 64) (by omega),
        if_false, ite_false, reduceIte]
      rw [show a / 4 * 4 + (a % 4 * 16 + b / 16) / 16 = a from by omega,
        show (a % 4 * 16 + b / 16) % 16 * 16 + (b % 16 * 4 + c / 64) / 4 = b
          from by omega,
        show (b % 16 * 4 + c / 64) % 4 * 64 + c % 64 = c from by omega]
      rw [show (out ++ [a]) ++ [b] ++ [c] = out ++ [a, b, c] from by
        simp [List.append_assoc]]
      rw [ih]
      simp

/-- `b64decode` inverts `b64encode` on genuine byte strings. -/
theorem b64decode_b64encode (bs : ByteSeq) (h : ∀ x ∈ bs, x < 256) :
    b64decode (b64encode bs) = some bs := by
  unfold b64decode b64encode
  rw [show (String.mk (b64encodeChunks bs)).data = b64encodeChunks bs from rfl]
  rw [if_pos (ascii_b64encodeChunks bs)]
  exact a2b_b64encodeChunks bs [] h

/-! ### C8: both endpoints agree on the same bytes and mutate nothing -/

/-- C8: for the same underlying image bytes, `/predict` on the raw bytes
and `/predict_base64` on their base64 encoding, invoked at any two times,
both succeed and produce identical prediction, confidence and probability
fields (the timestamps are the respective clock values), and neither
request changes the process state. -/
theorem endpoints_agree_and_stateless (st : ServerState) (m : Model)
    (dec : Decoder) (bytes : ByteSeq) (img : PILImage) (ct : String)
    (now1 now2 : Nat)
    (hm : st.model = some m)
    (hbytes : ∀ x ∈ bytes, x < 256)
    (hsw : str_startswith ct "image/" = true)
    (hlen : ¬ bytes.length > 10 * 1024 * 1024)
    (hdec : dec bytes = some img) :
    ∃ r1 r2,
      predict st dec { content_type := some ct, contents := bytes } now1 =
        { status := 200, body := some r1 } ∧
      predict_base64 st dec [("image", b64encode bytes)] now2 =
        { status := 200, body := some r2 } ∧
      r1.prediction = r2.prediction ∧
      r1.confidence = r2.confidence ∧
      r1.probNormal = r2.probNormal ∧
      r1.probPneumonia = r2.probPneumonia ∧
      r1.timestamp = now1 ∧ r2.timestamp = now2 ∧
      (predict_step st dec { content_type := some ct, contents := bytes } now1).2
        = st ∧
      (predict_base64_step st dec [("image", b64encode bytes)] now2).2 = st := by
  have hmp1 := make_prediction_fields st m now1 (preprocess_image img) hm
  have hmp2 := make_prediction_fields st m now2 (preprocess_image img) hm
  refine ⟨{ prediction := if m.predict (preprocess_image img) > 1/2 then "PNEUMONIA"
              else "NORMAL"
            confidence := if m.predict (preprocess_image img) > 1/2 then
              m.predict (preprocess_image img)
              else 1 - m.predict (preprocess_image img)
            probNormal := 1 - m.predict (preprocess_image img)
            probPneumonia := m.predict (preprocess_image img)
            model_used := st.model_name
            timestamp := now1 },
          { prediction := if m.predict (preprocess_image img) > 1/2 then "PNEUMONIA"
              else "NORMAL"
            confidence := if m.predict (preprocess_image img) > 1/2 then
              m.predict (preprocess_image img)
              else 1 - m.predict (preprocess_image img)
            probNormal := 1 - m.predict (preprocess_image img)
            probPneumonia := m.predict (preprocess_image img)
            model_used := st.model_name
            timestamp := now2 },
          ?_, ?_, rfl, rfl, rfl, rfl, rfl, rfl, rfl, rfl⟩
  · simp only [predict, hsw, Bool.not_true, Bool.false_eq_true, if_false, hlen,
      hdec, hmp1]
  · simp only [predict_base64, dictGet, List.find?, beq_self_eq_true,
      Option.map_some', b64decode_b64encode bytes hbytes, hdec, hmp2]

/-- Witness for C8: two concrete bytes through both endpoints at times 0
and 1 agree on every reported field. -/
theorem endpoints_agree_and_stateless_witness :
    ∃ r1 r2,
      predict stOne decW { content_type := some "image/png", contents := [65, 66] } 0 =
        { status := 200, body := some r1 } ∧
      predict_base64 stOne decW [("image", b64encode [65, 66])] 1 =
        { status := 200, body := some r2 } ∧
      r1.prediction = r2.prediction ∧
      r1.confidence = r2.confidence ∧
      r1.probNormal = r2.probNormal ∧
      r1.probPneumonia = r2.probPneumonia := by
  obtain ⟨r1, r2, h1, h2, hp, hcf, hn, hpn, -⟩ :=
    endpoints_agree_and_stateless stOne mOne decW [65, 66] imgW "image/png" 0 1
      rfl (by decide) (by decide) (by decide) rfl
  exact ⟨r1, r2, h1, h2, hp, hcf, hn, hpn⟩

end PneumoniaAPI
